import Mathlib

/-!
Verification of the TCP server in src/server.rs.

The wire codec (the prost-generated module crate::message) is not part of
the source tree; the spec treats it as an opaque external collaborator.
We therefore embed the connection handler and the server lifecycle as
functions parameterised over an abstract codec, and record every
observable action (socket writes, flushes, log records, thread spawns)
as an explicit event.  Machine integers (i32) are modelled as Int with
explicit wraparound modulo 2^32.
-/

/-- Two complement wraparound into the signed 32-bit range, the release-mode
semantics of Rust i32 addition used at server.rs line 57. -/
def wrap32 (x : Int) : Int := (x + 2 ^ 31) % 2 ^ 32 - 2 ^ 31

/-- message.EchoMessage: a single string field named content. -/
structure EchoMessage where
  content : String
deriving DecidableEq, Repr

/-- message.AddRequest: two i32 fields a and b. -/
structure AddRequest where
  a : Int
  b : Int
deriving DecidableEq, Repr

/-- message.AddResponse: one i32 field named result. -/
structure AddResponse where
  result : Int
deriving DecidableEq, Repr

/-- message.client_message.Message: the oneof payload of a ClientMessage. -/
inductive ClientMessageType where
  | addRequest (r : AddRequest)
  | echoMessage (m : EchoMessage)
deriving DecidableEq, Repr

/-- message.ClientMessage: an optional oneof payload, as prost generates it. -/
structure ClientMessage where
  message : Option ClientMessageType
deriving DecidableEq, Repr

/-- message.server_message.Message: the oneof payload of a ServerMessage. -/
inductive ServerMessageType where
  | addResponse (r : AddResponse)
  | echoMessage (m : EchoMessage)
deriving DecidableEq, Repr

/-- message.ServerMessage: an optional oneof payload. -/
structure ServerMessage where
  message : Option ServerMessageType
deriving DecidableEq, Repr

/-- The opaque serialize/deserialize contract of the Envelope Codec
collaborator: ClientMessage.decode, EchoMessage.decode, and the two
encode_to_vec calls used by server.rs.  Buffers are byte lists. -/
structure Codec where
  decodeClient : List Nat → Option ClientMessage
  decodeEcho : List Nat → Option EchoMessage
  encodeServer : ServerMessage → List Nat
  encodeEcho : EchoMessage → List Nat

/-- Observable actions of the server: socket writes (write_all attempts with
their payload), flushes, log records at each level, stdout prints, thread
spawns, the accept-loop sleep, blocking-mode switches and stores to the
running flag. -/
inductive Event where
  | write (bs : List Nat)
  | flush
  | logInfo (s : String)
  | logWarn (s : String)
  | logError (s : String)
  | printLine (s : String)
  | spawnWorker (addr : String)
  | spawnTask
  | sleepMs (n : Nat)
  | setNonblocking (b : Bool)
  | storeFlag (b : Bool)
deriving DecidableEq, Repr

/-- Outcomes of the fallible I/O calls a single handler iteration makes:
whether the AddResponse write_all, the echo write_all and the flush succeed.
server.rs breaks out of the loop when any of them fails. -/
structure IOB where
  addWriteOk : Bool
  echoWriteOk : Bool
  flushOk : Bool
deriving DecidableEq, Repr

/-- All three I/O calls succeed. -/
def iobAll : IOB := { addWriteOk := true, echoWriteOk := true, flushOk := true }

/-- server.rs lines 54-71: try to decode the buffer as a ClientMessage; if the
active variant is AddRequest, add the two fields with i32 wraparound, wrap the
AddResponse in a ServerMessage, encode it and write it back; a write failure
is logged and breaks the loop.  Returns the events and whether the loop
continues. -/
def addBlock (c : Codec) (iob : IOB) (buf : List Nat) : List Event × Bool :=
  match c.decodeClient buf with
  | some cm =>
    match cm.message with
    | some (ClientMessageType.addRequest ar) =>
      if iob.addWriteOk then
        ([Event.write (c.encodeServer
            ⟨some (ServerMessageType.addResponse ⟨wrap32 (ar.a + ar.b)⟩)⟩)], true)
      else
        ([Event.write (c.encodeServer
            ⟨some (ServerMessageType.addResponse ⟨wrap32 (ar.a + ar.b)⟩)⟩),
          Event.logError "Failed to write AddResponse to stream"], false)
    | _ => ([], true)
  | none => ([], true)

/-- server.rs lines 73-90: try to decode the same buffer as a standalone
EchoMessage; on success log and print the content, write the re-encoded
message back and flush (a failed write or flush is logged and breaks the
loop); on decode failure log a decode-failure error and continue. -/
def echoBlock (c : Codec) (iob : IOB) (buf : List Nat) : List Event × Bool :=
  match c.decodeEcho buf with
  | some m =>
    if iob.echoWriteOk then
      if iob.flushOk then
        ([Event.logInfo ("Received: " ++ m.content),
          Event.printLine ("Received: " ++ m.content),
          Event.write (c.encodeEcho m), Event.flush], true)
      else
        ([Event.logInfo ("Received: " ++ m.content),
          Event.printLine ("Received: " ++ m.content),
          Event.write (c.encodeEcho m), Event.flush,
          Event.logError "Failed to flush stream"], false)
    else
      ([Event.logInfo ("Received: " ++ m.content),
        Event.printLine ("Received: " ++ m.content),
        Event.write (c.encodeEcho m),
        Event.logError "Failed to write to stream"], false)
  | none => ([Event.logError "Failed to decode message"], true)

/-- server.rs lines 54-90: the two independent decode attempts against one
buffer.  The echo block runs only if the add block did not break the loop. -/
def processBuffer (c : Codec) (iob : IOB) (buf : List Nat) : List Event × Bool :=
  if (addBlock c iob buf).2 then
    ((addBlock c iob buf).1 ++ (echoBlock c iob buf).1, (echoBlock c iob buf).2)
  else
    addBlock c iob buf

/-- Result of one blocking read at server.rs line 39: an error, or the bytes
read into the buffer (zero bytes read is the empty list). -/
inductive ReadRes where
  | ok (bs : List Nat)
  | err (msg : String)
deriving DecidableEq, Repr

/-- Outcome of the read step: terminate this worker loop (with its final
events) or go on to dispatch the buffer. -/
inductive ReadOutcome where
  | terminate (evs : List Event)
  | dispatch (buf : List Nat)
deriving DecidableEq, Repr

/-- server.rs lines 39-51: a read error is logged and breaks the worker loop;
zero bytes read means the peer disconnected and breaks it cleanly; otherwise
the bytes go to the dispatch code. -/
def readStep (r : ReadRes) : ReadOutcome :=
  match r with
  | ReadRes.err m =>
    ReadOutcome.terminate [Event.logError ("Failed to read from stream: " ++ m)]
  | ReadRes.ok buf =>
    if buf.isEmpty then ReadOutcome.terminate [Event.logInfo "Client disconnected"]
    else ReadOutcome.dispatch buf

/-- server.rs lines 92-95, the drain loop: one non-blocking read result, which
either returned Ok with some byte count or returned an error (would-block or
any other error kind). -/
inductive DrainRes where
  | ok (n : Nat)
  | err (wouldBlock : Bool)
deriving DecidableEq, Repr

/-- True exactly for the error results, on which read(..).is_ok() is false. -/
def isErrRead : DrainRes → Bool
  | DrainRes.ok _ => false
  | DrainRes.err _ => true

/-- server.rs line 94: while local_stream.read(..).is_ok() do nothing.  Given
the stream of read results and a step budget, returns the index of the read at
which the loop exits, or none if the budget is exhausted with the loop still
running. -/
def drainExit (reads : Nat → DrainRes) : Nat → Nat → Option Nat
  | 0, _ => none
  | fuel + 1, i =>
    match reads i with
    | DrainRes.ok _ => drainExit reads fuel (i + 1)
    | DrainRes.err _ => some i

/-- The drain loop terminates on the given stream of read results: it exits
within some finite number of steps. -/
def drainTerminates (reads : Nat → DrainRes) : Prop :=
  ∃ fuel, (drainExit reads fuel 0).isSome

/-- Result of one accept() call at server.rs line 125: a connection with a
peer address, a would-block error, or any other error. -/
inductive AcceptRes where
  | conn (addr : String)
  | wouldBlock
  | errOther (msg : String)
deriving DecidableEq, Repr

/-- server.rs lines 125-153: the body of one listener-loop iteration.  A
connection is logged and gets a spawned worker thread; would-block sleeps
100ms; any other accept error is logged and nothing else happens, so the loop
just continues. -/
def acceptStep (r : AcceptRes) : List Event :=
  match r with
  | AcceptRes.conn a => [Event.logInfo ("New client connected: " ++ a), Event.spawnWorker a]
  | AcceptRes.wouldBlock => [Event.sleepMs 100]
  | AcceptRes.errOther m => [Event.logError ("Error accepting connection: " ++ m)]

/-- server.rs lines 124-154: while is_running.load() do one accept step.  The
stream flags gives the value of each successive load of the shared running
flag (stop() may flip it concurrently), accepts gives each accept() result,
and fuel bounds the number of iterations modelled.  Returns the events of the
whole loop including the final Server stopped log, or none if the flag never
became false within fuel iterations. -/
def runLoopAux (flags : Nat → Bool) (accepts : Nat → AcceptRes) :
    Nat → Nat → Option (List Event)
  | 0, _ => none
  | fuel + 1, i =>
    if flags i then
      Option.map (fun evs => acceptStep (accepts i) ++ evs)
        (runLoopAux flags accepts fuel (i + 1))
    else
      some [Event.logInfo "Server stopped."]

namespace Server

/-- server.rs lines 118-158, Server::run: store true into the running flag,
log, set the listener non-blocking, run the accept loop, and return Ok(())
once the loop exits.  none means the loop had not exited within fuel
iterations. -/
def run (flags : Nat → Bool) (accepts : Nat → AcceptRes) (fuel : Nat) :
    Option (List Event × Except String Unit) :=
  Option.map
    (fun evs =>
      (Event.storeFlag true :: Event.setNonblocking true :: evs, Except.ok ()))
    (runLoopAux flags accepts fuel 0)

/-- server.rs lines 161-168, Server::stop: if the flag reads true, store false
and log an info record; otherwise leave the flag alone and log a warning.
Takes the current flag value, returns the new flag value and the events. -/
def stop (isRunning : Bool) : Bool × List Event :=
  if isRunning then
    (false, [Event.storeFlag false, Event.logInfo "Shutdown signal sent."])
  else
    (isRunning, [Event.logWarn "Server was already stopped or not running."])

/-- server.rs line 113: the running flag starts out false at construction. -/
def initialRunning : Bool := false

end Server

namespace Client

/-- server.rs lines 30-35 and 97-100, Client::handle: clone the stream, spawn
one handler thread over the clone, and immediately return Ok(()).  If
try_clone fails, the error propagates and nothing is spawned.  Returns the
events and whether the call returned Ok. -/
def handle (cloneOk : Bool) : List Event × Bool :=
  if cloneOk then ([Event.spawnTask], true) else ([], false)

end Client

/-- server.rs lines 136-141: the thread spawned per accepted connection runs
while is_running.load() do call client.handle(), breaking if handle returns an
error.  Each successful handle() call spawns one more handler task over a
clone of the same connection.  Given the streams of flag loads and try_clone
outcomes and a fuel bound, counts the handler tasks spawned for this one
connection. -/
def connectionWorker (flags cloneOk : Nat → Bool) : Nat → Nat → Nat
  | 0, _ => 0
  | fuel + 1, i =>
    if flags i then
      if cloneOk i then 1 + connectionWorker flags cloneOk fuel (i + 1)
      else 0
    else 0

/-- True exactly when an optional oneof payload is the AddRequest variant, the
condition tested by the if-let at server.rs line 56. -/
def isAddMessage : Option ClientMessageType → Bool
  | some (ClientMessageType.addRequest _) => true
  | _ => false

/-- A concrete codec under which every buffer decodes as the ClientMessage
AddRequest(2, 3) and no buffer decodes as an EchoMessage.  Used to instantiate
the general theorems at a concrete input. -/
def addCodec : Codec where
  decodeClient := fun _ => some ⟨some (ClientMessageType.addRequest ⟨2, 3⟩)⟩
  decodeEcho := fun _ => none
  encodeServer := fun _ => [8, 5]
  encodeEcho := fun _ => []

/-- A concrete codec under which every buffer decodes both as the ClientMessage
AddRequest(2, 3) and as the standalone EchoMessage with content hi, whose
canonical encoding is the byte list [10, 2, 104, 105].  It mirrors protobuf
decoding in that a buffer with an extra unknown field, such as
[10, 2, 104, 105, 16, 5], still decodes to the same message, while re-encoding
that message yields only the canonical bytes. -/
def bothCodec : Codec where
  decodeClient := fun _ => some ⟨some (ClientMessageType.addRequest ⟨2, 3⟩)⟩
  decodeEcho := fun _ => some ⟨"hi"⟩
  encodeServer := fun _ => [8, 5]
  encodeEcho := fun _ => [10, 2, 104, 105]

/-- A concrete codec under which no buffer decodes under either schema. -/
def noneCodec : Codec where
  decodeClient := fun _ => none
  decodeEcho := fun _ => none
  encodeServer := fun _ => []
  encodeEcho := fun _ => []

/-- C1: when the buffer decodes as a ClientEnvelope whose active variant is
AddRequest(a, b), with a and b in the signed 32-bit range, the handler writes
back the serialized ServerEnvelope carrying AddResponse with result equal to
the wrapping 32-bit sum of a and b; the write is the first action of the
iteration, before any echo handling. -/
theorem addRequest_yields_addResponse (c : Codec) (iob : IOB) (buf : List Nat)
    (a b : Int)
    (hdec : c.decodeClient buf = some ⟨some (ClientMessageType.addRequest ⟨a, b⟩)⟩)
    (ha1 : -(2 ^ 31) ≤ a) (ha2 : a < 2 ^ 31)
    (hb1 : -(2 ^ 31) ≤ b) (hb2 : b < 2 ^ 31) :
    (processBuffer c iob buf).1.head? =
      some (Event.write (c.encodeServer
        ⟨some (ServerMessageType.addResponse ⟨wrap32 (a + b)⟩)⟩)) := by
  unfold processBuffer addBlock
  rw [hdec]
  cases h : iob.addWriteOk <;> simp [h]

/-- Witness for C1: the AddRequest(2, 3) codec at a concrete buffer. -/
theorem addRequest_yields_addResponse_witness :
    (processBuffer addCodec iobAll [1]).1.head? =
      some (Event.write (addCodec.encodeServer
        ⟨some (ServerMessageType.addResponse ⟨wrap32 (2 + 3)⟩)⟩)) :=
  addRequest_yields_addResponse addCodec iobAll [1] 2 3 rfl
    (by decide) (by decide) (by decide) (by decide)

/-- C2 counterexample: the handler does not write back the bytes it received;
it writes the re-serialization of the decoded message (server.rs line 79
encodes the decoded value instead of echoing the buffer).  Concrete input: the
buffer [10, 2, 104, 105, 16, 5] (the canonical encoding of content hi followed
by an unknown field, which protobuf-style decoding accepts and drops) under
bothCodec.  The handler never writes the received bytes; it writes the
canonical re-encoding [10, 2, 104, 105] instead. -/
theorem echo_not_byte_identical :
    Event.write [10, 2, 104, 105, 16, 5] ∉
      (processBuffer bothCodec iobAll [10, 2, 104, 105, 16, 5]).1 ∧
    Event.write [10, 2, 104, 105] ∈
      (processBuffer bothCodec iobAll [10, 2, 104, 105, 16, 5]).1 := by
  decide

/-- C2 amended: for every buffer that decodes as a standalone EchoMessage m,
the handler logs the content, writes back the re-serialization of m (equal to
the received bytes exactly when the buffer is a canonical encoding), and then
flushes the stream; the iteration continues.  Stated for runs in which the
writes and the flush succeed. -/
theorem echo_writes_reencoded (c : Codec) (iob : IOB) (buf : List Nat)
    (m : EchoMessage) (hdec : c.decodeEcho buf = some m)
    (ha : iob.addWriteOk = true) (he : iob.echoWriteOk = true)
    (hf : iob.flushOk = true) :
    (processBuffer c iob buf).1 =
      (addBlock c iob buf).1 ++
        [Event.logInfo ("Received: " ++ m.content),
         Event.printLine ("Received: " ++ m.content),
         Event.write (c.encodeEcho m), Event.flush] ∧
    (processBuffer c iob buf).2 = true := by
  have hcont : (addBlock c iob buf).2 = true := by
    unfold addBlock
    cases hc : c.decodeClient buf with
    | none => rfl
    | some cm =>
      cases hm : cm.message with
      | none => simp [hm]
      | some t => cases t <;> simp [hm, ha]
  unfold processBuffer
  rw [hcont]
  unfold echoBlock
  rw [hdec]
  simp [he, hf]

/-- Witness for C2 amended: bothCodec at a concrete buffer. -/
theorem echo_writes_reencoded_witness :
    (processBuffer bothCodec iobAll [0]).2 = true :=
  (echo_writes_reencoded bothCodec iobAll [0] ⟨"hi"⟩ rfl rfl rfl rfl).2

/-- C3: a buffer that yields no AddRequest under the ClientMessage decode and
fails the EchoMessage decode produces exactly one decode-failure error log, no
socket write of any kind, and the loop continues, so the connection stays open
for later messages. -/
theorem unrecognized_buffer_silent (c : Codec) (iob : IOB) (buf : List Nat)
    (hadd : ∀ cm, c.decodeClient buf = some cm → isAddMessage cm.message = false)
    (hecho : c.decodeEcho buf = none) :
    processBuffer c iob buf = ([Event.logError "Failed to decode message"], true) := by
  have haddb : addBlock c iob buf = ([], true) := by
    unfold addBlock
    cases hc : c.decodeClient buf with
    | none => rfl
    | some cm =>
      have hflat := hadd cm hc
      cases hm : cm.message with
      | none => simp [hm]
      | some t =>
        cases t with
        | addRequest ar => rw [hm] at hflat; simp [isAddMessage] at hflat
        | echoMessage m => simp [hm]
  unfold processBuffer
  rw [haddb]
  unfold echoBlock
  rw [hecho]
  simp

/-- Witness for C3: the codec under which nothing decodes, at a concrete
buffer. -/
theorem unrecognized_buffer_silent_witness :
    processBuffer noneCodec iobAll [1] =
      ([Event.logError "Failed to decode message"], true) :=
  unrecognized_buffer_silent noneCodec iobAll [1]
    (fun cm h => Option.noConfusion h) rfl

/-- C4: a buffer that decodes under both schemas triggers both code paths on
the same iteration: the serialized AddResponse envelope is written first, then
the echo path logs, writes the re-encoded echo message and flushes.  Stated
for runs in which the writes and the flush succeed. -/
theorem dual_decode_triggers_both (c : Codec) (iob : IOB) (buf : List Nat)
    (a b : Int) (m : EchoMessage)
    (hc : c.decodeClient buf = some ⟨some (ClientMessageType.addRequest ⟨a, b⟩)⟩)
    (he : c.decodeEcho buf = some m)
    (h1 : iob.addWriteOk = true) (h2 : iob.echoWriteOk = true)
    (h3 : iob.flushOk = true) :
    processBuffer c iob buf =
      ([Event.write (c.encodeServer
          ⟨some (ServerMessageType.addResponse ⟨wrap32 (a + b)⟩)⟩),
        Event.logInfo ("Received: " ++ m.content),
        Event.printLine ("Received: " ++ m.content),
        Event.write (c.encodeEcho m), Event.flush], true) := by
  unfold processBuffer addBlock echoBlock
  rw [hc, he]
  simp [h1, h2, h3]

/-- Witness for C4: bothCodec at a concrete buffer. -/
theorem dual_decode_triggers_both_witness :
    processBuffer bothCodec iobAll [0] =
      ([Event.write (bothCodec.encodeServer
          ⟨some (ServerMessageType.addResponse ⟨wrap32 (2 + 3)⟩)⟩),
        Event.logInfo ("Received: " ++ "hi"),
        Event.printLine ("Received: " ++ "hi"),
        Event.write (bothCodec.encodeEcho ⟨"hi"⟩), Event.flush], true) :=
  dual_decode_triggers_both bothCodec iobAll [0] 2 3 ⟨"hi"⟩ rfl rfl rfl rfl rfl

/-- C5: stop is idempotent.  A first call on a running server stores false
into the running flag and logs the shutdown notice; a call on a stopped or
never-started server leaves the flag false, stores nothing, and only logs a
warning notice; after any two consecutive calls the flag is false and the
second call only logged the notice. -/
theorem stop_idempotent :
    (Server.stop true).1 = false ∧
    (Server.stop true).2 =
      [Event.storeFlag false, Event.logInfo "Shutdown signal sent."] ∧
    Server.stop false =
      (false, [Event.logWarn "Server was already stopped or not running."]) ∧
    Server.initialRunning = false ∧
    (∀ s : Bool,
      (Server.stop (Server.stop s).1).1 = false ∧
      (Server.stop (Server.stop s).1).2 =
        [Event.logWarn "Server was already stopped or not running."]) := by
  decide

/-- C10: whenever the EchoMessage decode fails, the decode-failure error log
is emitted, even when the same buffer was successfully answered as an
AddRequest, because the error branch at server.rs line 89 belongs to the echo
decode alone.  Stated for runs in which the AddResponse write succeeds. -/
theorem decode_failure_logged_even_for_add (c : Codec) (iob : IOB)
    (buf : List Nat) (ha : iob.addWriteOk = true)
    (he : c.decodeEcho buf = none) :
    Event.logError "Failed to decode message" ∈ (processBuffer c iob buf).1 := by
  have hcont : (addBlock c iob buf).2 = true := by
    unfold addBlock
    cases hc : c.decodeClient buf with
    | none => rfl
    | some cm =>
      cases hm : cm.message with
      | none => simp [hm]
      | some t => cases t <;> simp [hm, ha]
  unfold processBuffer
  rw [hcont]
  unfold echoBlock
  rw [he]
  simp

/-- Witness for C10: the AddRequest(2, 3) codec, whose echo decode always
fails, at a concrete buffer. -/
theorem decode_failure_logged_even_for_add_witness :
    Event.logError "Failed to decode message" ∈
      (processBuffer addCodec iobAll [1]).1 :=
  decode_failure_logged_even_for_add addCodec iobAll [1] rfl rfl

/-- The accept loop exits within fuel iterations exactly when some flag load
within fuel reads false; the accept results never influence the exit. -/
theorem runLoopAux_isSome_iff (flags : Nat → Bool) (accepts : Nat → AcceptRes) :
    ∀ (fuel i : Nat), (runLoopAux flags accepts fuel i).isSome ↔
      ∃ n, n < fuel ∧ flags (i + n) = false
  | 0, i => by simp [runLoopAux]
  | fuel + 1, i => by
    rw [runLoopAux]
    by_cases h : flags i = true
    · rw [if_pos h]
      simp only [Option.isSome_map']
      rw [runLoopAux_isSome_iff flags accepts fuel (i + 1)]
      constructor
      · rintro ⟨n, hn, hf⟩
        refine ⟨n + 1, by omega, ?_⟩
        rw [show i + (n + 1) = i + 1 + n by omega]
        exact hf
      · rintro ⟨n, hn, hf⟩
        cases n with
        | zero =>
          rw [Nat.add_zero] at hf
          rw [hf] at h
          exact absurd h (by simp)
        | succ k =>
          refine ⟨k, by omega, ?_⟩
          rw [show i + 1 + k = i + (k + 1) by omega]
          exact hf
    · rw [if_neg h]
      simp only [Option.isSome_some, true_iff]
      exact ⟨0, by omega, by simpa using h⟩

/-- C6: the listener loop never exits because of an accept result: for every
stream of accept outcomes, including arbitrary non-would-block errors, the
loop exits within its step budget exactly when some load of the running flag
reads false; when it exits, run returns Ok; and a non-would-block accept
error only produces an error log record, after which the loop goes on. -/
theorem run_exits_iff_flag_false (flags : Nat → Bool) (accepts : Nat → AcceptRes)
    (fuel : Nat) :
    ((Server.run flags accepts fuel).isSome ↔ ∃ n, n < fuel ∧ flags n = false) ∧
    (∀ out, Server.run flags accepts fuel = some out → out.2 = Except.ok ()) ∧
    (∀ m, acceptStep (AcceptRes.errOther m) =
      [Event.logError ("Error accepting connection: " ++ m)]) := by
  refine ⟨?_, ?_, fun m => rfl⟩
  · unfold Server.run
    simp only [Option.isSome_map']
    simpa using runLoopAux_isSome_iff flags accepts fuel 0
  · intro out hout
    unfold Server.run at hout
    cases hr : runLoopAux flags accepts fuel 0 with
    | none => rw [hr] at hout; simp at hout
    | some evs =>
      rw [hr] at hout
      simp only [Option.map_some'] at hout
      rw [← Option.some_inj.mp hout]

/-- Witness for C6: the flag reads true once then false, every accept attempt
fails with a non-would-block error, and the loop still exits. -/
theorem run_exits_iff_flag_false_witness :
    (Server.run (fun n => decide (n = 0))
      (fun _ => AcceptRes.errOther "boom") 2).isSome :=
  (run_exits_iff_flag_false (fun n => decide (n = 0))
      (fun _ => AcceptRes.errOther "boom") 2).1.mpr
    ⟨1, by decide, by decide⟩

/-- C7: a read error is logged and terminates this worker loop, and a
zero-byte read (peer disconnected) terminates it cleanly with an info log.
The isolation part of the claim is structural in this embedding: a worker is
a function of its own connection inputs only, and the listener loop
(Server.run) takes no read results of any connection, so neither the listener
nor another worker observes this termination. -/
theorem read_error_or_eof_terminates :
    (∀ m, readStep (ReadRes.err m) =
      ReadOutcome.terminate
        [Event.logError ("Failed to read from stream: " ++ m)]) ∧
    readStep (ReadRes.ok []) =
      ReadOutcome.terminate [Event.logInfo "Client disconnected"] :=
  ⟨fun _ => rfl, rfl⟩

/-- On a stream in which every non-blocking read returns Ok(0) — the peer has
closed the connection — the drain loop never exits, regardless of budget. -/
theorem drainExit_allOk :
    ∀ (fuel i : Nat), drainExit (fun _ => DrainRes.ok 0) fuel i = none
  | 0, _ => rfl
  | fuel + 1, i => by
    rw [drainExit]
    exact drainExit_allOk fuel (i + 1)

/-- C8 counterexample: the drain loop does not terminate for every possible
sequence of read results.  Concrete input: the stream in which every read
returns Ok with zero bytes, which is exactly what a non-blocking read yields
forever once the peer has closed the connection; read(..).is_ok() is true on
Ok(0), so the loop at server.rs line 94 never exits. -/
theorem drain_no_termination_on_closed_peer :
    ¬ drainTerminates (fun _ => DrainRes.ok 0) := by
  rintro ⟨fuel, h⟩
  rw [drainExit_allOk fuel 0] at h
  simp at h

/-- The drain loop, started at index i, exits at index n exactly by skipping
Ok reads and stopping at the first read that is an error. -/
theorem drainExit_spec (reads : Nat → DrainRes) :
    ∀ (fuel i n : Nat), drainExit reads fuel i = some n →
      i ≤ n ∧ isErrRead (reads n) = true ∧
        ∀ m, i ≤ m → m < n → isErrRead (reads m) = false
  | 0, i, n, h => by simp [drainExit] at h
  | fuel + 1, i, n, h => by
    rw [drainExit] at h
    cases hr : reads i with
    | ok k =>
      rw [hr] at h
      obtain ⟨h1, h2, h3⟩ := drainExit_spec reads fuel (i + 1) n h
      refine ⟨by omega, h2, fun m hm1 hm2 => ?_⟩
      rcases Nat.eq_or_lt_of_le hm1 with heq | hlt
      · rw [← heq, hr]; rfl
      · exact h3 m hlt hm2
    | err w =>
      rw [hr] at h
      have hn := Option.some_inj.mp h
      subst hn
      exact ⟨Nat.le_refl i, by rw [hr]; rfl,
        fun m hm1 hm2 => absurd hm2 (by omega)⟩

/-- C8 amended: when the drain loop exits, it exits exactly at the first read
that returns an error of any kind (would-block or otherwise), having
read-and-discarded through every earlier Ok read including zero-byte ones;
it does not terminate on a stream with no erroring read, such as the all-Ok(0)
stream of a closed peer. -/
theorem drain_exits_at_first_error (reads : Nat → DrainRes) (fuel n : Nat)
    (h : drainExit reads fuel 0 = some n) :
    isErrRead (reads n) = true ∧
      ∀ m, m < n → isErrRead (reads m) = false := by
  obtain ⟨-, h2, h3⟩ := drainExit_spec reads fuel 0 n h
  exact ⟨h2, fun m hm => h3 m (Nat.zero_le m) hm⟩

/-- A concrete drain-read stream: one Ok read with three bytes, then a
would-block error. -/
def drainReadsW : Nat → DrainRes :=
  fun i => if i = 0 then DrainRes.ok 3 else DrainRes.err true

/-- Witness for C8 amended: on drainReadsW the loop exits at index 1, which is
an erroring read. -/
theorem drain_exits_at_first_error_witness :
    isErrRead (drainReadsW 1) = true :=
  (drain_exits_at_first_error drainReadsW 3 1 (by decide)).1

/-- C9 counterexample: more than one worker task is created for a single
accepted connection.  Concrete input: the running flag reads true and
try_clone succeeds on every load; within the first two iterations of the
per-connection thread loop at server.rs lines 136-141, two handler tasks have
already been spawned for the same connection (each handle() call at line 35
spawns a fresh thread over a clone of the stream and returns immediately). -/
theorem multiple_tasks_per_connection :
    connectionWorker (fun _ => true) (fun _ => true) 2 0 = 2 := rfl

/-- C9 amended: the listener loop spawns exactly one thread per accepted
connection, but that thread calls Client::handle in a loop while the running
flag is true, and every successful handle() call spawns one additional
handler task over a clone of the same connection — one task per iteration of
its budget — so a single connection accumulates arbitrarily many worker
tasks and is not owned exclusively by one of them. -/
theorem one_task_per_iteration (flags cloneOk : Nat → Bool)
    (hf : ∀ m, flags m = true) (hc : ∀ m, cloneOk m = true) :
    (∀ (fuel i : Nat), connectionWorker flags cloneOk fuel i = fuel) ∧
    (∀ a, acceptStep (AcceptRes.conn a) =
      [Event.logInfo ("New client connected: " ++ a), Event.spawnWorker a]) := by
  refine ⟨?_, fun a => rfl⟩
  intro fuel
  induction fuel with
  | zero => intro i; rfl
  | succ k ih =>
    intro i
    rw [connectionWorker, hf i, hc i]
    simp [ih (i + 1)]
    omega

/-- Witness for C9 amended: with the flag always true and try_clone always
succeeding, three loop iterations spawn three handler tasks for the one
connection. -/
theorem one_task_per_iteration_witness :
    connectionWorker (fun _ => true) (fun _ => true) 3 0 = 3 :=
  (one_task_per_iteration (fun _ => true) (fun _ => true)
    (fun _ => rfl) (fun _ => rfl)).1 3 0
